import Mathlib

/-!
Verification of the suggestion lifecycle subsystem of the insurance-claims
backend (claims-api).  The Python source is embedded shallowly: the in-memory
database is a list of suggestion records, repository and route functions are
state-passing Lean functions, machine floats become rationals, and fallible
operations return an error value together with the (unchanged) state.
-/

namespace ClaimsApi

/-- Identifier type standing for the UUIDs of the source. -/
abbrev UUID := Nat

/-- Timestamps, abstracted to naturals (only ordering and equality are used). -/
abbrev DateTime := Nat

/-- SuggestionType enumeration from app/models/enums.py. -/
inductive SuggestionType where
  | approve_claim
  | deny_claim
  | request_info
  | flag_fraud
  | adjust_amount
  | replace_item
  | repair_item
deriving DecidableEq

/-- SuggestionStatus enumeration from app/models/enums.py. -/
inductive SuggestionStatus where
  | pending
  | accepted
  | rejected
  | modified
deriving DecidableEq

/-- Dynamic JSON-like values, standing for the JsonDict / Any payloads of the
source (suggested_action, modified_action). -/
inductive JsonVal where
  | jnull : JsonVal
  | jbool : Bool → JsonVal
  | jnum : ℚ → JsonVal
  | jstr : String → JsonVal
  | jarr : List JsonVal → JsonVal
  | jobj : List (String × JsonVal) → JsonVal

/-- Python truthiness for the JSON-like values (used by the source in
conditions such as the one guarding modified_action). -/
def JsonVal.truthy : JsonVal → Bool
  | .jnull => false
  | .jbool b => b
  | .jnum q => decide (q ≠ 0)
  | .jstr s => !s.isEmpty
  | .jarr xs => !xs.isEmpty
  | .jobj xs => !xs.isEmpty

/-- Python truthiness of an optional value: None is falsy, otherwise the
truthiness of the wrapped value. -/
def optTruthy : Option JsonVal → Bool
  | none => false
  | some v => v.truthy

/-- Address record from app/models/schemas.py. -/
structure Address where
  street : String
  city : String
  state : String
  zipcode : String
  country : String

/-- ClaimItem record from app/models/schemas.py. -/
structure ClaimItem where
  name : String
  description : String
  category : String
  estimated_value : ℚ
  purchase_date : Option DateTime
  replacement_cost : Option ℚ

/-- Claim record from app/models/schemas.py (the fields read by the suggestion
subsystem). -/
structure Claim where
  id : UUID
  policy_number : String
  policyholder_name : String
  date_of_loss : DateTime
  description : String
  total_amount : ℚ
  incident_location : Address
  items : List ClaimItem

/-- AISuggestion record from app/models/schemas.py. -/
structure Suggestion where
  id : UUID
  claim_id : UUID
  type : SuggestionType
  description : String
  confidence_score : ℚ
  ai_explanation : String
  suggested_action : JsonVal
  status : SuggestionStatus
  created_at : DateTime
  reviewed_at : Option DateTime
  reviewer_id : Option UUID
  reviewer_notes : Option String
  model_version : String

namespace AIService

/-- The adjust_amount record appended by rule 1 of _fallback_analysis
(app/services/ai_service.py); u models the uuid4() call and now the
datetime.utcnow() call at that construction site. -/
def fallback_adjust (claim : Claim) (u : UUID) (now : DateTime) : Suggestion :=
  { id := u
    claim_id := claim.id
    type := .adjust_amount
    description := "High-value claim detected"
    confidence_score := 85/100
    ai_explanation := "Claim amount exceeds normal threshold"
    suggested_action := .jobj
      [("action", .jstr "review"),
       ("reason", .jstr "high_value"),
       ("threshold", .jnum 10000),
       ("current_amount", .jnum claim.total_amount)]
    status := .pending
    created_at := now
    reviewed_at := none
    reviewer_id := none
    reviewer_notes := none
    model_version := "fallback-v1" }

/-- The flag_fraud record appended by rule 2 of _fallback_analysis. -/
def fallback_fraud (claim : Claim) (u : UUID) (now : DateTime) : Suggestion :=
  { id := u
    claim_id := claim.id
    type := .flag_fraud
    description := "Potential fraud indicators detected"
    confidence_score := 75/100
    ai_explanation := "Unusual claim characteristics detected"
    suggested_action := .jobj
      [("action", .jstr "investigate"),
       ("indicators", .jarr
         [.jstr (if 50000 < claim.total_amount then "high_amount"
                 else "excessive_items")]),
       ("risk_level", .jstr "medium")]
    status := .pending
    created_at := now
    reviewed_at := none
    reviewer_id := none
    reviewer_notes := none
    model_version := "fallback-v1" }

/-- The approve_claim record appended unconditionally by rule 3 of
_fallback_analysis. -/
def fallback_approve (claim : Claim) (u : UUID) (now : DateTime) : Suggestion :=
  { id := u
    claim_id := claim.id
    type := .approve_claim
    description := "Basic claim recommendation"
    confidence_score := 80/100
    ai_explanation := "Initial review suggests approval pending detailed analysis"
    suggested_action := .jobj
      [("action", .jstr "approve"),
       ("total_amount", .jnum claim.total_amount)]
    status := .pending
    created_at := now
    reviewed_at := none
    reviewer_id := none
    reviewer_notes := none
    model_version := "fallback-v1" }

/-- Rule-based fallback generator, AIService._fallback_analysis from
app/services/ai_service.py: rule 1 fires when total_amount exceeds 10000,
rule 2 when total_amount exceeds 50000 or the claim has more than 10 items,
rule 3 always.  The uuid4() calls of the three construction sites are
modelled by the parameters u1 u2 u3, and datetime.utcnow() by now. -/
def fallback_analysis (claim : Claim) (u1 u2 u3 : UUID) (now : DateTime) :
    List Suggestion :=
  (if 10000 < claim.total_amount then [fallback_adjust claim u1 now] else []) ++
  (if 50000 < claim.total_amount ∨ 10 < claim.items.length then
    [fallback_fraud claim u2 now]
  else []) ++
  [fallback_approve claim u3 now]

end AIService

/-- The suggestion store: the database session state restricted to the
ai_suggestions table, as a list of rows in insertion order. -/
structure DB where
  suggestions : List Suggestion

/-- Replace the first record with the given id by applying the field updates
(the setattr loop of BaseRepository.update mutates the fetched row in place). -/
def replaceFirst (xs : List Suggestion) (id : UUID)
    (setFields : Suggestion → Suggestion) : List Suggestion :=
  match xs with
  | [] => []
  | x :: rest =>
      if x.id == id then setFields x :: rest
      else x :: replaceFirst rest id setFields

namespace BaseRepository

/-- BaseRepository.get from app/repositories/base.py: first record whose id
matches, or none. -/
def get (db : DB) (id : UUID) : Option Suggestion :=
  db.suggestions.find? (fun s => s.id == id)

/-- BaseRepository.create from app/repositories/base.py: add the record and
commit; returns the stored record. -/
def create (db : DB) (obj : Suggestion) : Suggestion × DB :=
  (obj, ⟨db.suggestions ++ [obj]⟩)

/-- BaseRepository.update from app/repositories/base.py: fetch the record by
id; when present apply the field updates of the update dictionary and commit;
returns the updated record, or none when the id is unknown (state unchanged). -/
def update (db : DB) (id : UUID) (setFields : Suggestion → Suggestion) :
    Option Suggestion × DB :=
  match get db id with
  | none => (none, db)
  | some s => (some (setFields s), ⟨replaceFirst db.suggestions id setFields⟩)

/-- BaseRepository.delete from app/repositories/base.py: fetch the record by
id; when present delete that row and commit, returning true; otherwise false
with the state unchanged. -/
def delete (db : DB) (id : UUID) : Bool × DB :=
  match get db id with
  | none => (false, db)
  | some _ => (true, ⟨db.suggestions.eraseP (fun s => s.id == id)⟩)

end BaseRepository

/-- Insert a record into a list kept in descending created_at order. -/
def insertByCreatedDesc (s : Suggestion) : List Suggestion → List Suggestion
  | [] => [s]
  | t :: ts =>
      if t.created_at < s.created_at then s :: t :: ts
      else t :: insertByCreatedDesc s ts

/-- Stable sort by descending created_at, modelling the SQL
order_by(created_at.desc()) of the source queries. -/
def sortByCreatedDesc : List Suggestion → List Suggestion
  | [] => []
  | x :: xs => insertByCreatedDesc x (sortByCreatedDesc xs)

/-- Metrics record returned by SuggestionRepository.get_metrics. -/
structure Metrics where
  total_suggestions : Nat
  acceptance_rate : ℚ
  rejection_rate : ℚ
  modification_rate : ℚ
  suggestions_by_type : List (SuggestionType × Nat)

namespace SuggestionRepository

/-- SuggestionRepository.get_by_claim from
app/repositories/suggestion_repository.py: all suggestions of the claim,
most recently created first. -/
def get_by_claim (db : DB) (claim_id : UUID) : List Suggestion :=
  sortByCreatedDesc (db.suggestions.filter (fun s => s.claim_id == claim_id))

/-- SuggestionRepository.update_status from
app/repositories/suggestion_repository.py: build the update dictionary with
status, reviewer_id, reviewer_notes and reviewed_at, add suggested_action
only when modified_action is truthy, and delegate to BaseRepository.update. -/
def update_status (db : DB) (suggestion_id : UUID) (status : SuggestionStatus)
    (reviewer_id : UUID) (reviewer_notes : Option String)
    (modified_action : Option JsonVal) (now : DateTime) :
    Option Suggestion × DB :=
  BaseRepository.update db suggestion_id (fun s =>
    let s1 := { s with status := status
                       reviewer_id := some reviewer_id
                       reviewer_notes := reviewer_notes
                       reviewed_at := some now }
    if optTruthy modified_action then
      { s1 with suggested_action := modified_action.getD s1.suggested_action }
    else s1)

/-- SuggestionRepository.get_metrics from
app/repositories/suggestion_repository.py: total count, per-status rates
guarded by total > 0, and counts grouped by type. -/
def get_metrics (db : DB) : Metrics :=
  let total := db.suggestions.length
  let accepted := db.suggestions.countP (fun s => s.status == .accepted)
  let rejected := db.suggestions.countP (fun s => s.status == .rejected)
  let modifiedCount := db.suggestions.countP (fun s => s.status == .modified)
  { total_suggestions := total
    acceptance_rate := if 0 < total then (accepted : ℚ) / (total : ℚ) else 0
    rejection_rate := if 0 < total then (rejected : ℚ) / (total : ℚ) else 0
    modification_rate :=
      if 0 < total then (modifiedCount : ℚ) / (total : ℚ) else 0
    suggestions_by_type :=
      ((db.suggestions.map (fun s => s.type)).dedup).map
        (fun t => (t, db.suggestions.countP (fun s => s.type == t))) }

/-- SuggestionRepository.get_high_confidence_suggestions from
app/repositories/suggestion_repository.py: records whose confidence_score is
at least the threshold. -/
def get_high_confidence_suggestions (db : DB) (threshold : ℚ) :
    List Suggestion :=
  db.suggestions.filter (fun s => decide (threshold ≤ s.confidence_score))

end SuggestionRepository

/-- Errors surfaced by the HTTP routes in app/api/routes/suggestions.py:
404 for an unknown suggestion, 400 for a suggestion already reviewed. -/
inductive ApiError where
  | notFound
  | alreadyReviewed
deriving DecidableEq

/-- SuggestionReview record from app/models/schemas.py. -/
structure SuggestionReview where
  suggestion_id : UUID
  status : SuggestionStatus
  reviewer_id : UUID
  reviewer_notes : Option String
  modified_action : Option JsonVal

namespace Routes

/-- review_suggestion route from app/api/routes/suggestions.py: fetch the
suggestion (404 when missing), reject with 400 when its status is not
PENDING, otherwise set the review fields, overwrite suggested_action when
modified_action is truthy, and commit. -/
def review_suggestion (db : DB) (suggestion_id : UUID)
    (review : SuggestionReview) (now : DateTime) :
    Except ApiError Suggestion × DB :=
  match db.suggestions.find? (fun s => s.id == suggestion_id) with
  | none => (.error .notFound, db)
  | some s =>
      if s.status ≠ SuggestionStatus.pending then (.error .alreadyReviewed, db)
      else
        let s1 := { s with status := review.status
                           reviewer_id := some review.reviewer_id
                           reviewer_notes := review.reviewer_notes
                           reviewed_at := some now }
        let s2 :=
          if optTruthy review.modified_action then
            { s1 with suggested_action :=
                review.modified_action.getD s1.suggested_action }
          else s1
        (.ok s2, ⟨replaceFirst db.suggestions suggestion_id (fun _ => s2)⟩)

end Routes

/-- Failure signal of the Recommendation Generator call. -/
inductive GenFailure where
  | generationFailed
deriving DecidableEq

/-- Candidate suggestion payload produced by the Generator (spec §4.2). -/
structure CandidateSuggestion where
  type : SuggestionType
  description : String
  confidence_score : ℚ
  explanation : String
  suggested_action : JsonVal

/-- The batch of suggestion rows built from a candidate list: fresh ids are
taken from the given list, the claim back-reference and the PENDING status
are set, and creation time is now. -/
def generatedBatch (claim_id : UUID) (cands : List CandidateSuggestion)
    (ids : List UUID) (mv : String) (now : DateTime) : List Suggestion :=
  (ids.zip cands).map (fun p =>
    { id := p.1
      claim_id := claim_id
      type := p.2.type
      description := p.2.description
      confidence_score := p.2.confidence_score
      ai_explanation := p.2.explanation
      suggested_action := p.2.suggested_action
      status := .pending
      created_at := now
      reviewed_at := none
      reviewer_id := none
      reviewer_notes := none
      model_version := mv })

/-- Modelled from the spec: AIService.generate_suggestions is invoked by
SuggestionsService.regenerate_suggestions and by the claims service, but is
defined nowhere in the source.  Per spec sections 4.2 and 4.3 the Generator
produces a candidate list that is persisted as a new PENDING batch for the
claim; its fresh identifiers and the creation time are parameters here. -/
def AIService.generate_suggestions (claim_id : UUID)
    (cands : List CandidateSuggestion) (ids : List UUID) (mv : String)
    (now : DateTime) (db : DB) : Except GenFailure (List Suggestion) × DB :=
  let batch := generatedBatch claim_id cands ids mv now
  (.ok batch, ⟨db.suggestions ++ batch⟩)

/-- Validation failures at suggestion creation (spec §4.1). -/
inductive ValidationError where
  | confidenceOutOfRange
  | invalidType
  | invalidStatus
deriving DecidableEq

/-- Raw (wire-level) suggestion creation payload: enumeration fields arrive
as strings and must be validated against the closed enumerations. -/
structure RawSuggestionCreate where
  claim_id : UUID
  type : String
  description : String
  confidence_score : ℚ
  ai_explanation : String
  suggested_action : JsonVal
  status : String
  model_version : String

/-- Parse a SuggestionType from its string value (app/models/enums.py). -/
def suggestionTypeOfString (s : String) : Option SuggestionType :=
  if s = "approve_claim" then some .approve_claim
  else if s = "deny_claim" then some .deny_claim
  else if s = "request_info" then some .request_info
  else if s = "flag_fraud" then some .flag_fraud
  else if s = "adjust_amount" then some .adjust_amount
  else if s = "replace_item" then some .replace_item
  else if s = "repair_item" then some .repair_item
  else none

/-- Parse a SuggestionStatus from its string value (app/models/enums.py). -/
def suggestionStatusOfString (s : String) : Option SuggestionStatus :=
  if s = "pending" then some .pending
  else if s = "accepted" then some .accepted
  else if s = "rejected" then some .rejected
  else if s = "modified" then some .modified
  else none

/-- Modelled from the spec: the SuggestionCreate schema is imported by the
service and the routes but is defined nowhere in the source.  Per spec
section 4.1, creation fails with ValidationError when confidence_score is
outside the closed interval from 0 to 1, or when type or status is not a
member of its closed enumeration. -/
def SuggestionCreate.validate (raw : RawSuggestionCreate) :
    Except ValidationError (SuggestionType × SuggestionStatus) :=
  if raw.confidence_score < 0 ∨ 1 < raw.confidence_score then
    .error .confidenceOutOfRange
  else
    match suggestionTypeOfString raw.type with
    | none => .error .invalidType
    | some t =>
        match suggestionStatusOfString raw.status with
        | none => .error .invalidStatus
        | some st => .ok (t, st)

namespace SuggestionsService

/-- SuggestionsService.create_suggestion from
app/services/suggestions_service.py: validate the creation payload (the
SuggestionCreate schema, modelled from the spec) and persist it through
BaseRepository.create; a validation failure is surfaced and nothing is
stored.  The assigned identifier and creation time are parameters. -/
def create_suggestion (db : DB) (raw : RawSuggestionCreate) (newId : UUID)
    (now : DateTime) : Except ValidationError Suggestion × DB :=
  match SuggestionCreate.validate raw with
  | .error e => (.error e, db)
  | .ok (t, st) =>
      let s : Suggestion :=
        { id := newId
          claim_id := raw.claim_id
          type := t
          description := raw.description
          confidence_score := raw.confidence_score
          ai_explanation := raw.ai_explanation
          suggested_action := raw.suggested_action
          status := st
          created_at := now
          reviewed_at := none
          reviewer_id := none
          reviewer_notes := none
          model_version := raw.model_version }
      let r := BaseRepository.create db s
      (.ok r.1, r.2)

/-- SuggestionsService.update_suggestion_status from
app/services/suggestions_service.py: a direct delegation to
SuggestionRepository.update_status, with no precondition on the current
status. -/
def update_suggestion_status (db : DB) (suggestion_id : UUID)
    (status : SuggestionStatus) (reviewer_id : UUID)
    (reviewer_notes : Option String) (modified_action : Option JsonVal)
    (now : DateTime) : Option Suggestion × DB :=
  SuggestionRepository.update_status db suggestion_id status reviewer_id
    reviewer_notes modified_action now

/-- SuggestionsService.regenerate_suggestions from
app/services/suggestions_service.py: list the existing suggestions of the
claim, delete each one (each deletion commits), then invoke the generator on
the resulting state.  The generator call is a parameter because
AIService.generate_suggestions does not exist in the source; a failing
generator leaves the post-deletion state in place. -/
def regenerate_suggestions
    (gen : DB → Except GenFailure (List Suggestion) × DB) (db : DB)
    (claim_id : UUID) : Except GenFailure (List Suggestion) × DB :=
  let existing := SuggestionRepository.get_by_claim db claim_id
  let db1 := existing.foldl (fun d s => (BaseRepository.delete d s.id).2) db
  gen db1

end SuggestionsService

/-- Helper building a test claim with a given amount and item count. -/
def testClaim (amount : ℚ) (nItems : Nat) : Claim :=
  { id := 0
    policy_number := "POL-1"
    policyholder_name := "Test Holder"
    date_of_loss := 0
    description := "test claim"
    total_amount := amount
    incident_location :=
      { street := "1 Main St", city := "Town", state := "TS",
        zipcode := "00000", country := "US" }
    items := List.replicate nItems
      { name := "item", description := "an item", category := "general",
        estimated_value := 1, purchase_date := none, replacement_cost := none } }

/-- Helper building a test suggestion row. -/
def testSuggestion (id claim_id : UUID) (status : SuggestionStatus)
    (confidence : ℚ) (created : DateTime) : Suggestion :=
  { id := id
    claim_id := claim_id
    type := .approve_claim
    description := "test suggestion"
    confidence_score := confidence
    ai_explanation := "test explanation"
    suggested_action := .jobj [("action", .jstr "approve")]
    status := status
    created_at := created
    reviewed_at := none
    reviewer_id := none
    reviewer_notes := none
    model_version := "fallback-v1" }

/-- A suggestion that has already been reviewed (ACCEPTED). -/
def reviewedSuggestion : Suggestion :=
  { testSuggestion 1 10 .accepted 1 3 with
      reviewed_at := some 4, reviewer_id := some 7, reviewer_notes := some "ok" }

/-- A store holding one already-reviewed suggestion. -/
def reviewedDB : DB := ⟨[reviewedSuggestion]⟩

/-- A review payload targeting suggestion 1. -/
def testReview : SuggestionReview :=
  { suggestion_id := 1
    status := .rejected
    reviewer_id := 99
    reviewer_notes := none
    modified_action := none }

/-- A PENDING suggestion used for the review frame-condition witness. -/
def pendingSuggestion : Suggestion := testSuggestion 1 10 .pending 1 3

/-- A store holding one PENDING suggestion. -/
def pendingDB : DB := ⟨[pendingSuggestion]⟩

/-- A store with one suggestion of each status, for the metrics witness. -/
def metricsDB : DB :=
  ⟨[testSuggestion 1 10 .pending 1 1,
    testSuggestion 2 10 .accepted 1 2,
    testSuggestion 3 10 .rejected 1 3,
    testSuggestion 4 20 .modified 1 4]⟩

/-- A store for the regeneration witnesses: claim 10 has an ACCEPTED and a
PENDING suggestion, claim 20 has one PENDING suggestion. -/
def regenDB : DB :=
  ⟨[testSuggestion 1 10 .accepted 1 1,
    testSuggestion 2 10 .pending 1 2,
    testSuggestion 3 20 .pending 1 3]⟩

/-- A candidate list for the regeneration witness. -/
def testCandidates : List CandidateSuggestion :=
  [{ type := .approve_claim
     description := "regenerated"
     confidence_score := 1/2
     explanation := "regenerated explanation"
     suggested_action := .jobj [("action", .jstr "approve")] }]

/-- A creation payload whose confidence_score is out of range. -/
def invalidRawSuggestion : RawSuggestionCreate :=
  { claim_id := 10
    type := "approve_claim"
    description := "bad confidence"
    confidence_score := 2
    ai_explanation := "explanation"
    suggested_action := .jobj []
    status := "pending"
    model_version := "fallback-v1" }

/-- A suggestion with confidence_score exactly 0.80. -/
def hcSuggestion : Suggestion := testSuggestion 1 10 .pending (80/100) 1

/-- A store holding only the 0.80-confidence suggestion. -/
def hcDB : DB := ⟨[hcSuggestion]⟩

/-!  Theorems.  -/

/-- Claim C4: for a claim with total_amount 15000 and 3 items, the fallback
generator yields exactly two candidates: the adjust_amount one with
confidence 0.85, explanation "Claim amount exceeds normal threshold" and the
review/high_value action carrying threshold 10000 and current_amount 15000,
and the approve_claim one with confidence 0.80; no flag_fraud candidate. -/
theorem fallback_at_15000
    (c : Claim) (u1 u2 u3 : UUID) (now : DateTime)
    (hamt : c.total_amount = 15000) (hitems : c.items.length = 3) :
    AIService.fallback_analysis c u1 u2 u3 now
      = [AIService.fallback_adjust c u1 now, AIService.fallback_approve c u3 now] ∧
    (AIService.fallback_adjust c u1 now).type = .adjust_amount ∧
    (AIService.fallback_adjust c u1 now).confidence_score = 85/100 ∧
    (AIService.fallback_adjust c u1 now).ai_explanation
      = "Claim amount exceeds normal threshold" ∧
    (AIService.fallback_adjust c u1 now).suggested_action
      = .jobj [("action", .jstr "review"), ("reason", .jstr "high_value"),
               ("threshold", .jnum 10000), ("current_amount", .jnum 15000)] ∧
    (AIService.fallback_approve c u3 now).type = .approve_claim ∧
    (AIService.fallback_approve c u3 now).confidence_score = 80/100 ∧
    ∀ s ∈ AIService.fallback_analysis c u1 u2 u3 now, s.type ≠ .flag_fraud := by
  have h1 : (10000 : ℚ) < c.total_amount := by rw [hamt]; norm_num
  have h2 : ¬ (50000 < c.total_amount ∨ 10 < c.items.length) := by
    rw [hamt, hitems]; norm_num
  refine ⟨?_, rfl, rfl, rfl, ?_, rfl, rfl, ?_⟩
  · simp [AIService.fallback_analysis, h1, h2]
  · simp [AIService.fallback_adjust, hamt]
  · intro s hs
    simp [AIService.fallback_analysis, h1, h2] at hs
    rcases hs with h | h <;>
      simp [h, AIService.fallback_adjust, AIService.fallback_approve]

/-- Witness for claim C4 at the concrete claim with amount 15000 and 3
items. -/
theorem fallback_at_15000_witness :
    AIService.fallback_analysis (testClaim 15000 3) 1 2 3 4
      = [AIService.fallback_adjust (testClaim 15000 3) 1 4,
         AIService.fallback_approve (testClaim 15000 3) 3 4] ∧
    (AIService.fallback_adjust (testClaim 15000 3) 1 4).type = .adjust_amount ∧
    (AIService.fallback_adjust (testClaim 15000 3) 1 4).confidence_score = 85/100 ∧
    (AIService.fallback_adjust (testClaim 15000 3) 1 4).ai_explanation
      = "Claim amount exceeds normal threshold" ∧
    (AIService.fallback_adjust (testClaim 15000 3) 1 4).suggested_action
      = .jobj [("action", .jstr "review"), ("reason", .jstr "high_value"),
               ("threshold", .jnum 10000), ("current_amount", .jnum 15000)] ∧
    (AIService.fallback_approve (testClaim 15000 3) 3 4).type = .approve_claim ∧
    (AIService.fallback_approve (testClaim 15000 3) 3 4).confidence_score = 80/100 ∧
    ∀ s ∈ AIService.fallback_analysis (testClaim 15000 3) 1 2 3 4,
      s.type ≠ .flag_fraud :=
  fallback_at_15000 (testClaim 15000 3) 1 2 3 4 rfl rfl

/-- Claim C5: for a claim with total_amount 60000 and 2 items the fallback
yields exactly three candidates including the flag_fraud one with confidence
0.75 and indicator high_amount; in general the fallback output contains a
flag_fraud candidate exactly when total_amount exceeds 50000 or the item
count exceeds 10, and its single indicator is high_amount when total_amount
exceeds 50000 and excessive_items otherwise. -/
theorem fallback_fraud_indicator_rule
    (c : Claim) (u1 u2 u3 : UUID) (now : DateTime) :
    (c.total_amount = 60000 → c.items.length = 2 →
      AIService.fallback_analysis c u1 u2 u3 now
        = [AIService.fallback_adjust c u1 now, AIService.fallback_fraud c u2 now,
           AIService.fallback_approve c u3 now] ∧
      (AIService.fallback_fraud c u2 now).type = .flag_fraud ∧
      (AIService.fallback_fraud c u2 now).confidence_score = 75/100 ∧
      (AIService.fallback_fraud c u2 now).suggested_action
        = .jobj [("action", .jstr "investigate"),
                 ("indicators", .jarr [.jstr "high_amount"]),
                 ("risk_level", .jstr "medium")]) ∧
    ((AIService.fallback_analysis c u1 u2 u3 now).filter
        (fun s => s.type == .flag_fraud)
      = if 50000 < c.total_amount ∨ 10 < c.items.length
        then [AIService.fallback_fraud c u2 now] else []) ∧
    (AIService.fallback_fraud c u2 now).suggested_action
      = .jobj [("action", .jstr "investigate"),
               ("indicators", .jarr
                 [.jstr (if 50000 < c.total_amount then "high_amount"
                         else "excessive_items")]),
               ("risk_level", .jstr "medium")] := by
  refine ⟨?_, ?_, rfl⟩
  · intro hamt hitems
    have h1 : (10000 : ℚ) < c.total_amount := by rw [hamt]; norm_num
    have h5 : (50000 : ℚ) < c.total_amount := by rw [hamt]; norm_num
    have h2 : 50000 < c.total_amount ∨ 10 < c.items.length := Or.inl h5
    refine ⟨by simp [AIService.fallback_analysis, h1, h2], rfl, rfl, ?_⟩
    simp [AIService.fallback_fraud, h5]
  · by_cases h1 : (10000 : ℚ) < c.total_amount <;>
      by_cases h2 : (50000 : ℚ) < c.total_amount ∨ 10 < c.items.length <;>
      simp [AIService.fallback_analysis, h1, h2, AIService.fallback_adjust,
        AIService.fallback_fraud, AIService.fallback_approve]

/-- Witness for claim C5 at the concrete claim with amount 60000 and 2
items. -/
theorem fallback_fraud_indicator_rule_witness :
    AIService.fallback_analysis (testClaim 60000 2) 1 2 3 4
      = [AIService.fallback_adjust (testClaim 60000 2) 1 4,
         AIService.fallback_fraud (testClaim 60000 2) 2 4,
         AIService.fallback_approve (testClaim 60000 2) 3 4] ∧
    (AIService.fallback_fraud (testClaim 60000 2) 2 4).type = .flag_fraud ∧
    (AIService.fallback_fraud (testClaim 60000 2) 2 4).confidence_score = 75/100 ∧
    (AIService.fallback_fraud (testClaim 60000 2) 2 4).suggested_action
      = .jobj [("action", .jstr "investigate"),
               ("indicators", .jarr [.jstr "high_amount"]),
               ("risk_level", .jstr "medium")] :=
  (fallback_fraud_indicator_rule (testClaim 60000 2) 1 2 3 4).1 rfl rfl

/-- Claim C6: for every claim the fallback generator emits between 1 and 3
candidates, always including exactly one approve_claim candidate with
confidence 0.80 and the approve action carrying the total amount. -/
theorem fallback_always_approves
    (c : Claim) (u1 u2 u3 : UUID) (now : DateTime) :
    1 ≤ (AIService.fallback_analysis c u1 u2 u3 now).length ∧
    (AIService.fallback_analysis c u1 u2 u3 now).length ≤ 3 ∧
    (AIService.fallback_analysis c u1 u2 u3 now).filter
        (fun s => s.type == .approve_claim)
      = [AIService.fallback_approve c u3 now] ∧
    (AIService.fallback_approve c u3 now).confidence_score = 80/100 ∧
    (AIService.fallback_approve c u3 now).suggested_action
      = .jobj [("action", .jstr "approve"), ("total_amount", .jnum c.total_amount)] := by
  refine ⟨?_, ?_, ?_, rfl, rfl⟩ <;>
    by_cases h1 : (10000 : ℚ) < c.total_amount <;>
    by_cases h2 : (50000 : ℚ) < c.total_amount ∨ 10 < c.items.length <;>
    simp [AIService.fallback_analysis, h1, h2, AIService.fallback_adjust,
      AIService.fallback_fraud, AIService.fallback_approve]

/-- Helper: the per-status counts never exceed the population size. -/
theorem countP_status_le (xs : List Suggestion) :
    xs.countP (fun s => s.status == SuggestionStatus.accepted)
      + xs.countP (fun s => s.status == SuggestionStatus.rejected)
      + xs.countP (fun s => s.status == SuggestionStatus.modified)
      ≤ xs.length := by
  induction xs with
  | nil => simp
  | cons x t ih =>
      cases hx : x.status <;>
        simp [List.countP_cons, hx, List.length_cons] <;> omega

/-- Claim C3: the metrics rates are the per-status counts divided by the
total when the total is positive, are 0 when the store is empty, and the
three rates sum to at most 1 because PENDING suggestions count in the total
but in no rate. -/
theorem metrics_rates (db : DB) :
    (0 < db.suggestions.length →
      (SuggestionRepository.get_metrics db).acceptance_rate
        = (db.suggestions.countP (fun s => s.status == SuggestionStatus.accepted) : ℚ)
            / (db.suggestions.length : ℚ) ∧
      (SuggestionRepository.get_metrics db).rejection_rate
        = (db.suggestions.countP (fun s => s.status == SuggestionStatus.rejected) : ℚ)
            / (db.suggestions.length : ℚ) ∧
      (SuggestionRepository.get_metrics db).modification_rate
        = (db.suggestions.countP (fun s => s.status == SuggestionStatus.modified) : ℚ)
            / (db.suggestions.length : ℚ)) ∧
    (db.suggestions.length = 0 →
      (SuggestionRepository.get_metrics db).acceptance_rate = 0 ∧
      (SuggestionRepository.get_metrics db).rejection_rate = 0 ∧
      (SuggestionRepository.get_metrics db).modification_rate = 0) ∧
    (SuggestionRepository.get_metrics db).acceptance_rate
      + (SuggestionRepository.get_metrics db).rejection_rate
      + (SuggestionRepository.get_metrics db).modification_rate ≤ 1 := by
  refine ⟨?_, ?_, ?_⟩
  · intro h
    refine ⟨?_, ?_, ?_⟩ <;> simp [SuggestionRepository.get_metrics, h]
  · intro h
    refine ⟨?_, ?_, ?_⟩ <;> simp [SuggestionRepository.get_metrics, h]
  · rcases Nat.eq_zero_or_pos db.suggestions.length with h | h
    · simp [SuggestionRepository.get_metrics, h]
    · have hT : (0 : ℚ) < (db.suggestions.length : ℚ) := by exact_mod_cast h
      simp only [SuggestionRepository.get_metrics, if_pos h]
      rw [div_add_div_same, div_add_div_same, div_le_one hT]
      exact_mod_cast countP_status_le db.suggestions

/-- Witness for claim C3 at a store holding one suggestion of each status. -/
theorem metrics_rates_witness :
    0 < metricsDB.suggestions.length ∧
    ((SuggestionRepository.get_metrics metricsDB).acceptance_rate
        = (metricsDB.suggestions.countP (fun s => s.status == SuggestionStatus.accepted) : ℚ)
            / (metricsDB.suggestions.length : ℚ) ∧
      (SuggestionRepository.get_metrics metricsDB).rejection_rate
        = (metricsDB.suggestions.countP (fun s => s.status == SuggestionStatus.rejected) : ℚ)
            / (metricsDB.suggestions.length : ℚ) ∧
      (SuggestionRepository.get_metrics metricsDB).modification_rate
        = (metricsDB.suggestions.countP (fun s => s.status == SuggestionStatus.modified) : ℚ)
            / (metricsDB.suggestions.length : ℚ)) :=
  ⟨by decide, (metrics_rates metricsDB).1 (by decide)⟩

/-- Claim C8: HighConfidence returns exactly the suggestions whose
confidence_score is at least the threshold (inclusive); concretely, the
0.80-confidence suggestion is returned at threshold 0.80 and not at
threshold 0.81. -/
theorem high_confidence_inclusive :
    (∀ (db : DB) (t : ℚ) (s : Suggestion),
        s ∈ SuggestionRepository.get_high_confidence_suggestions db t ↔
          s ∈ db.suggestions ∧ t ≤ s.confidence_score) ∧
    SuggestionRepository.get_high_confidence_suggestions hcDB (80/100)
      = [hcSuggestion] ∧
    SuggestionRepository.get_high_confidence_suggestions hcDB (81/100) = [] := by
  refine ⟨?_, ?_, ?_⟩
  · intro db t s
    simp [SuggestionRepository.get_high_confidence_suggestions, List.mem_filter]
  · simp only [SuggestionRepository.get_high_confidence_suggestions, hcDB,
      hcSuggestion, testSuggestion, List.filter_cons, List.filter_nil]
    norm_num
  · simp only [SuggestionRepository.get_high_confidence_suggestions, hcDB,
      hcSuggestion, testSuggestion, List.filter_cons, List.filter_nil]
    norm_num

/-- Claim C7: creating a suggestion whose confidence_score is outside the
closed interval from 0 to 1, or whose type or status string is not in its
closed enumeration, fails with a ValidationError and leaves the store
population unchanged. -/
theorem create_rejects_invalid
    (db : DB) (raw : RawSuggestionCreate) (newId : UUID) (now : DateTime)
    (hinvalid : raw.confidence_score < 0 ∨ 1 < raw.confidence_score ∨
      suggestionTypeOfString raw.type = none ∨
      suggestionStatusOfString raw.status = none) :
    ∃ e, SuggestionsService.create_suggestion db raw newId now
      = (.error e, db) := by
  by_cases hc : raw.confidence_score < 0 ∨ 1 < raw.confidence_score
  · exact ⟨.confidenceOutOfRange, by
      simp [SuggestionsService.create_suggestion, SuggestionCreate.validate, hc]⟩
  · cases ht : suggestionTypeOfString raw.type with
    | none =>
        exact ⟨.invalidType, by
          simp [SuggestionsService.create_suggestion, SuggestionCreate.validate,
            hc, ht]⟩
    | some t =>
        have hs : suggestionStatusOfString raw.status = none := by
          rcases hinvalid with h | h | h | h
          · exact absurd (Or.inl h) hc
          · exact absurd (Or.inr h) hc
          · rw [ht] at h; cases h
          · exact h
        exact ⟨.invalidStatus, by
          simp [SuggestionsService.create_suggestion, SuggestionCreate.validate,
            hc, ht, hs]⟩

/-- Witness for claim C7: a creation payload with confidence_score 2 is
rejected and the empty store stays empty. -/
theorem create_rejects_invalid_witness :
    ∃ e, SuggestionsService.create_suggestion ⟨[]⟩ invalidRawSuggestion 5 9
      = (.error e, ⟨[]⟩) :=
  create_rejects_invalid ⟨[]⟩ invalidRawSuggestion 5 9 (Or.inr (Or.inl one_lt_two))

/-- Claim C10: the status-update mutation path overwrites suggested_action
exactly when the supplied modified_action is truthy, always overwrites
status, reviewer_id, reviewer_notes (to none when omitted) and reviewed_at,
and leaves id, claim_id, type, description, confidence_score,
ai_explanation, created_at and model_version unchanged. -/
theorem update_status_review_frame
    (db : DB) (sid : UUID) (st : SuggestionStatus) (rid : UUID)
    (notes : Option String) (maction : Option JsonVal) (now : DateTime)
    (s : Suggestion)
    (hfind : db.suggestions.find? (fun t => t.id == sid) = some s) :
    ∃ s2, (SuggestionRepository.update_status db sid st rid notes maction now).1
        = some s2 ∧
      s2.status = st ∧ s2.reviewer_id = some rid ∧ s2.reviewer_notes = notes ∧
      s2.reviewed_at = some now ∧
      (optTruthy maction = true →
        s2.suggested_action = maction.getD s.suggested_action) ∧
      (optTruthy maction = false →
        s2.suggested_action = s.suggested_action) ∧
      s2.id = s.id ∧ s2.claim_id = s.claim_id ∧ s2.type = s.type ∧
      s2.description = s.description ∧
      s2.confidence_score = s.confidence_score ∧
      s2.ai_explanation = s.ai_explanation ∧ s2.created_at = s.created_at ∧
      s2.model_version = s.model_version := by
  have hget : BaseRepository.get db sid = some s := hfind
  cases hm : optTruthy maction with
  | false =>
      refine ⟨{ s with
          status := st
          reviewer_id := some rid
          reviewer_notes := notes
          reviewed_at := some now },
        ?_, rfl, rfl, rfl, rfl, ?_, fun _ => rfl,
        rfl, rfl, rfl, rfl, rfl, rfl, rfl, rfl⟩
      · simp [SuggestionRepository.update_status, BaseRepository.update,
          hget, hm]
      · intro h; simp at h
  | true =>
      refine ⟨{ s with
          status := st
          reviewer_id := some rid
          reviewer_notes := notes
          reviewed_at := some now
          suggested_action := maction.getD s.suggested_action },
        ?_, rfl, rfl, rfl, rfl, fun _ => rfl, ?_,
        rfl, rfl, rfl, rfl, rfl, rfl, rfl, rfl⟩
      · simp [SuggestionRepository.update_status, BaseRepository.update,
          hget, hm]
      · intro h; simp at h

/-- Witness for claim C10: a MODIFIED review whose modified_action is the
empty string (falsy) leaves suggested_action unchanged while the review
fields are set. -/
theorem update_status_review_frame_witness :
    ∃ s2, (SuggestionRepository.update_status pendingDB 1
          SuggestionStatus.modified 9 none (some (.jstr "")) 7).1 = some s2 ∧
      s2.status = SuggestionStatus.modified ∧ s2.reviewer_id = some 9 ∧
      s2.reviewer_notes = none ∧ s2.reviewed_at = some 7 ∧
      (optTruthy (some (.jstr "")) = true →
        s2.suggested_action = (some (JsonVal.jstr "")).getD
          pendingSuggestion.suggested_action) ∧
      (optTruthy (some (.jstr "")) = false →
        s2.suggested_action = pendingSuggestion.suggested_action) ∧
      s2.id = pendingSuggestion.id ∧ s2.claim_id = pendingSuggestion.claim_id ∧
      s2.type = pendingSuggestion.type ∧
      s2.description = pendingSuggestion.description ∧
      s2.confidence_score = pendingSuggestion.confidence_score ∧
      s2.ai_explanation = pendingSuggestion.ai_explanation ∧
      s2.created_at = pendingSuggestion.created_at ∧
      s2.model_version = pendingSuggestion.model_version :=
  update_status_review_frame pendingDB 1 SuggestionStatus.modified 9 none
    (some (.jstr "")) 7 pendingSuggestion rfl

/-- Claim C1 (amended): submitting a review through the review endpoint for
a suggestion whose status is not PENDING fails with the already-reviewed
error and leaves the whole store, hence every field of the suggestion,
unchanged; through that endpoint a successful review is possible at most
once per suggestion.  The repository update_status path checks no
precondition and overwrites reviewed suggestions (see the counterexample). -/
theorem review_non_pending_rejected
    (db : DB) (sid : UUID) (review : SuggestionReview) (now : DateTime)
    (s : Suggestion)
    (hfind : db.suggestions.find? (fun t => t.id == sid) = some s)
    (hstatus : s.status ≠ SuggestionStatus.pending) :
    Routes.review_suggestion db sid review now = (.error .alreadyReviewed, db) := by
  simp [Routes.review_suggestion, hfind, hstatus]

/-- Witness for the amended claim C1: reviewing the ACCEPTED suggestion
through the review endpoint is rejected and the store is unchanged. -/
theorem review_non_pending_rejected_witness :
    Routes.review_suggestion reviewedDB 1 testReview 5
      = (.error .alreadyReviewed, reviewedDB) :=
  review_non_pending_rejected reviewedDB 1 testReview 5 reviewedSuggestion
    rfl (by decide)

/-- Counterexample to claim C1 as stated: the suggestion with id 1 is
ACCEPTED (not PENDING), yet submitting a review for it through the
update_status path succeeds and overwrites its status and reviewer fields
instead of failing. -/
theorem second_review_overwrites :
    ((reviewedDB.suggestions.find? (fun s => s.id == 1)).map
        (fun s => s.status) = some SuggestionStatus.accepted) ∧
    ((SuggestionRepository.update_status reviewedDB 1
        SuggestionStatus.rejected 99 none none 5).1).map (fun s => s.status)
      = some SuggestionStatus.rejected ∧
    ((SuggestionRepository.update_status reviewedDB 1
        SuggestionStatus.rejected 99 none none 5).1).map (fun s => s.reviewer_id)
      = some (some 99) :=
  ⟨rfl, rfl, rfl⟩

/-- Helper: inserting into the sorted list is a permutation of consing. -/
theorem insertByCreatedDesc_perm (s : Suggestion) (xs : List Suggestion) :
    (insertByCreatedDesc s xs).Perm (s :: xs) := by
  induction xs with
  | nil => simp [insertByCreatedDesc]
  | cons t ts ih =>
      simp only [insertByCreatedDesc]
      split
      · exact List.Perm.refl _
      · exact (List.Perm.cons t ih).trans (List.Perm.swap s t ts)

/-- Helper: the created_at sort is a permutation of its input. -/
theorem sortByCreatedDesc_perm (xs : List Suggestion) :
    (sortByCreatedDesc xs).Perm xs := by
  induction xs with
  | nil => simp [sortByCreatedDesc]
  | cons x t ih =>
      exact (insertByCreatedDesc_perm x (sortByCreatedDesc t)).trans
        (List.Perm.cons x ih)

/-- Helper: when ids are unique, erasing the first record with a given id
removes exactly the records with that id. -/
theorem eraseP_eq_filter_of_nodup (xs : List Suggestion) (i : UUID)
    (h : (xs.map (fun s => s.id)).Nodup) :
    xs.eraseP (fun s => s.id == i) = xs.filter (fun s => !(s.id == i)) := by
  induction xs with
  | nil => rfl
  | cons x t ih =>
      simp only [List.map_cons, List.nodup_cons] at h
      obtain ⟨hx, ht⟩ := h
      by_cases hxi : (x.id == i) = true
      · have hxid : x.id = i := by simpa using hxi
        have hfilter : List.filter (fun s => !(s.id == i)) t = t := by
          rw [List.filter_eq_self]
          intro a ha
          have : a.id ≠ i := by
            intro hai
            apply hx
            have hmem : a.id ∈ List.map (fun s => s.id) t :=
              List.mem_map_of_mem (fun s => s.id) ha
            rw [hai, ← hxid] at hmem
            exact hmem
          simpa using this
        simp [List.eraseP_cons, List.filter_cons, hxi, hfilter]
      · have hxi' : (x.id == i) = false := by simpa using hxi
        simp [List.eraseP_cons, List.filter_cons, hxi', ih ht]

/-- Helper: when ids are unique, BaseRepository.delete leaves exactly the
records whose id differs. -/
theorem delete_state (db : DB) (i : UUID)
    (h : (db.suggestions.map (fun s => s.id)).Nodup) :
    ((BaseRepository.delete db i).2).suggestions
      = db.suggestions.filter (fun s => !(s.id == i)) := by
  cases hf : db.suggestions.find? (fun s => s.id == i) with
  | none =>
      simp only [BaseRepository.delete, BaseRepository.get, hf]
      rw [List.find?_eq_none] at hf
      rw [eq_comm, List.filter_eq_self]
      intro a ha
      simpa using hf a ha
  | some s =>
      simp only [BaseRepository.delete, BaseRepository.get, hf]
      exact eraseP_eq_filter_of_nodup _ _ h

/-- Helper: filtering preserves uniqueness of the ids. -/
theorem nodup_ids_filter (xs : List Suggestion) (p : Suggestion → Bool)
    (h : (xs.map (fun s => s.id)).Nodup) :
    ((xs.filter p).map (fun s => s.id)).Nodup :=
  List.Nodup.sublist (List.Sublist.map _ (List.filter_sublist xs)) h

/-- Helper: folding deletions over a list of records removes exactly the
records whose id occurs in that list, when the store ids are unique. -/
theorem foldl_delete_state (L : List Suggestion) :
    ∀ (db : DB), (db.suggestions.map (fun s => s.id)).Nodup →
    (L.foldl (fun d s => (BaseRepository.delete d s.id).2) db).suggestions
      = db.suggestions.filter
          (fun s => !((L.map (fun t => t.id)).contains s.id)) := by
  induction L with
  | nil => intro db _; simp
  | cons a t ih =>
      intro db h
      rw [List.foldl_cons]
      have h1 := delete_state db a.id h
      have h2 : (((BaseRepository.delete db a.id).2).suggestions.map
          (fun s => s.id)).Nodup := by
        rw [h1]; exact nodup_ids_filter _ _ h
      rw [ih _ h2, h1, List.filter_filter]
      refine List.filter_congr ?_
      intro s _
      simp only [List.map_cons, List.contains_cons, Bool.not_or]
      exact Bool.and_comm _ _

/-- Helper: the deletion loop of regenerate_suggestions removes exactly the
suggestions of the claim, when the store ids are unique. -/
theorem foldl_delete_claim (db : DB) (cid : UUID)
    (h : (db.suggestions.map (fun s => s.id)).Nodup) :
    ((SuggestionRepository.get_by_claim db cid).foldl
        (fun d s => (BaseRepository.delete d s.id).2) db).suggestions
      = db.suggestions.filter (fun s => !(s.claim_id == cid)) := by
  rw [foldl_delete_state _ db h]
  refine List.filter_congr ?_
  intro s hs
  have hperm := sortByCreatedDesc_perm
    (db.suggestions.filter (fun t => t.claim_id == cid))
  cases hc : (s.claim_id == cid) with
  | true =>
      have hsL : s ∈ SuggestionRepository.get_by_claim db cid :=
        hperm.mem_iff.2 (List.mem_filter.2 ⟨hs, hc⟩)
      have hmem : s.id ∈ (SuggestionRepository.get_by_claim db cid).map
          (fun t => t.id) := List.mem_map_of_mem _ hsL
      simpa using hmem
  | false =>
      have hcid : s.claim_id ≠ cid := by simpa using hc
      suffices hns : s.id ∉ (SuggestionRepository.get_by_claim db cid).map
          (fun t => t.id) by simpa using hns
      intro hmem
      obtain ⟨t, htL, htid⟩ := List.mem_map.1 hmem
      have htf : t ∈ db.suggestions.filter (fun r => r.claim_id == cid) :=
        hperm.mem_iff.1 htL
      obtain ⟨htdb, htc⟩ := List.mem_filter.1 htf
      have : t = s := List.inj_on_of_nodup_map h htdb hs htid
      rw [this] at htc
      exact hcid (by simpa using htc)

/-- Helper: every record of a generated batch takes its id from the fresh id
list, refers to the claim, and is PENDING. -/
theorem generatedBatch_fields (cid : UUID) (cands : List CandidateSuggestion)
    (ids : List UUID) (mv : String) (now : DateTime) :
    ∀ s ∈ generatedBatch cid cands ids mv now,
      s.id ∈ ids ∧ s.claim_id = cid ∧ s.status = SuggestionStatus.pending := by
  intro s hs
  simp only [generatedBatch, List.mem_map] at hs
  obtain ⟨⟨i, c⟩, hp, rfl⟩ := hs
  exact ⟨(List.of_mem_zip hp).1, rfl, rfl⟩

/-- Claim C9: regeneration deletes and commits the removal of every existing
suggestion of the claim before the generator runs, so a generator failure
leaves the claim with zero suggestions and the old ids unresolvable: the
pre-regeneration state is not restored on error. -/
theorem regenerate_not_atomic
    (db : DB) (cid : UUID)
    (gen : DB → Except GenFailure (List Suggestion) × DB) (e : GenFailure)
    (hnodup : (db.suggestions.map (fun s => s.id)).Nodup)
    (hgen : ∀ d, gen d = (.error e, d)) :
    (SuggestionsService.regenerate_suggestions gen db cid).1 = .error e ∧
    SuggestionRepository.get_by_claim
      (SuggestionsService.regenerate_suggestions gen db cid).2 cid = [] ∧
    (∀ s ∈ db.suggestions, s.claim_id = cid →
      BaseRepository.get
        (SuggestionsService.regenerate_suggestions gen db cid).2 s.id = none) := by
  have h2 : (SuggestionsService.regenerate_suggestions gen db cid).2.suggestions
      = db.suggestions.filter (fun s => !(s.claim_id == cid)) := by
    simp only [SuggestionsService.regenerate_suggestions, hgen]
    exact foldl_delete_claim db cid hnodup
  refine ⟨?_, ?_, ?_⟩
  · simp only [SuggestionsService.regenerate_suggestions, hgen]
  · unfold SuggestionRepository.get_by_claim
    rw [h2, List.filter_filter]
    have hnil : db.suggestions.filter
        (fun s => (s.claim_id == cid) && !(s.claim_id == cid)) = [] := by
      rw [List.filter_eq_nil_iff]
      intro a _
      cases h : (a.claim_id == cid) <;> simp [h]
    rw [hnil]
    rfl
  · intro s hs hcid
    unfold BaseRepository.get
    rw [h2, List.find?_eq_none]
    intro t ht hbeq
    obtain ⟨htdb, htc⟩ := List.mem_filter.1 ht
    have htid : t.id = s.id := by simpa using hbeq
    have : t = s := List.inj_on_of_nodup_map hnodup htdb hs htid
    rw [this, hcid] at htc
    simp at htc

/-- Witness for claim C9: with a failing generator, regenerating claim 10 of
a three-suggestion store reports the failure, leaves claim 10 with no
suggestions, and makes the two old claim-10 ids unresolvable. -/
theorem regenerate_not_atomic_witness :
    (SuggestionsService.regenerate_suggestions
        (fun d => (.error .generationFailed, d)) regenDB 10).1
      = .error .generationFailed ∧
    SuggestionRepository.get_by_claim
      (SuggestionsService.regenerate_suggestions
        (fun d => (.error .generationFailed, d)) regenDB 10).2 10 = [] ∧
    (∀ s ∈ regenDB.suggestions, s.claim_id = 10 →
      BaseRepository.get
        (SuggestionsService.regenerate_suggestions
          (fun d => (.error .generationFailed, d)) regenDB 10).2 s.id = none) :=
  regenerate_not_atomic regenDB 10 (fun d => (.error .generationFailed, d))
    .generationFailed (by decide) (fun d => rfl)

/-- Claim C2: regeneration deletes every suggestion of the claim regardless
of status and persists a freshly generated PENDING batch; afterwards the
claim listing returns exactly the new batch and Get on any pre-regeneration
suggestion id of the claim returns not-found.  The generator is the
spec-modelled AIService.generate_suggestions with fresh ids. -/
theorem regenerate_replaces_batch
    (db : DB) (cid : UUID) (cands : List CandidateSuggestion)
    (ids : List UUID) (mv : String) (now : DateTime)
    (hnodup : (db.suggestions.map (fun s => s.id)).Nodup)
    (hfresh : ∀ i ∈ ids, i ∉ db.suggestions.map (fun s => s.id)) :
    (SuggestionsService.regenerate_suggestions
        (AIService.generate_suggestions cid cands ids mv now) db cid).1
      = .ok (generatedBatch cid cands ids mv now) ∧
    (∀ s ∈ generatedBatch cid cands ids mv now,
      s.status = SuggestionStatus.pending ∧ s.claim_id = cid) ∧
    (SuggestionRepository.get_by_claim
        (SuggestionsService.regenerate_suggestions
          (AIService.generate_suggestions cid cands ids mv now) db cid).2
        cid).Perm
      (generatedBatch cid cands ids mv now) ∧
    (∀ s ∈ db.suggestions, s.claim_id = cid →
      BaseRepository.get
        (SuggestionsService.regenerate_suggestions
          (AIService.generate_suggestions cid cands ids mv now) db cid).2
        s.id = none) := by
  have h2 : (SuggestionsService.regenerate_suggestions
        (AIService.generate_suggestions cid cands ids mv now) db cid).2.suggestions
      = db.suggestions.filter (fun s => !(s.claim_id == cid))
        ++ generatedBatch cid cands ids mv now := by
    simp only [SuggestionsService.regenerate_suggestions,
      AIService.generate_suggestions]
    rw [foldl_delete_claim db cid hnodup]
  refine ⟨rfl, ?_, ?_, ?_⟩
  · intro s hs
    obtain ⟨_, hc, hp⟩ := generatedBatch_fields cid cands ids mv now s hs
    exact ⟨hp, hc⟩
  · unfold SuggestionRepository.get_by_claim
    rw [h2, List.filter_append, List.filter_filter]
    have hnil : db.suggestions.filter
        (fun s => (s.claim_id == cid) && !(s.claim_id == cid)) = [] := by
      rw [List.filter_eq_nil_iff]
      intro a _
      cases h : (a.claim_id == cid) <;> simp [h]
    have hbatch : (generatedBatch cid cands ids mv now).filter
        (fun s => s.claim_id == cid) = generatedBatch cid cands ids mv now := by
      rw [List.filter_eq_self]
      intro a ha
      have := (generatedBatch_fields cid cands ids mv now a ha).2.1
      simpa using this
    rw [hnil, hbatch, List.nil_append]
    exact sortByCreatedDesc_perm _
  · intro s hs hcid
    unfold BaseRepository.get
    rw [h2, List.find?_eq_none]
    intro t ht hbeq
    have htid : t.id = s.id := by simpa using hbeq
    rcases List.mem_append.1 ht with htf | htb
    · obtain ⟨htdb, htc⟩ := List.mem_filter.1 htf
      have : t = s := List.inj_on_of_nodup_map hnodup htdb hs htid
      rw [this, hcid] at htc
      simp at htc
    · have hidIn : t.id ∈ ids :=
        (generatedBatch_fields cid cands ids mv now t htb).1
      have : t.id ∉ db.suggestions.map (fun r => r.id) := hfresh t.id hidIn
      exact this (htid ▸ List.mem_map_of_mem (fun r => r.id) hs)

/-- Witness for claim C2: regenerating claim 10 (which has an ACCEPTED and a
PENDING suggestion) with one fresh candidate replaces its suggestions with
the new PENDING batch and makes the old claim-10 ids unresolvable. -/
theorem regenerate_replaces_batch_witness :
    (SuggestionsService.regenerate_suggestions
        (AIService.generate_suggestions 10 testCandidates [100] "fallback-v1" 9)
        regenDB 10).1
      = .ok (generatedBatch 10 testCandidates [100] "fallback-v1" 9) ∧
    (∀ s ∈ generatedBatch 10 testCandidates [100] "fallback-v1" 9,
      s.status = SuggestionStatus.pending ∧ s.claim_id = 10) ∧
    (SuggestionRepository.get_by_claim
        (SuggestionsService.regenerate_suggestions
          (AIService.generate_suggestions 10 testCandidates [100] "fallback-v1" 9)
          regenDB 10).2 10).Perm
      (generatedBatch 10 testCandidates [100] "fallback-v1" 9) ∧
    (∀ s ∈ regenDB.suggestions, s.claim_id = 10 →
      BaseRepository.get
        (SuggestionsService.regenerate_suggestions
          (AIService.generate_suggestions 10 testCandidates [100] "fallback-v1" 9)
          regenDB 10).2 s.id = none) :=
  regenerate_replaces_batch regenDB 10 testCandidates [100] "fallback-v1" 9
    (by decide) (by decide)

end ClaimsApi
